import Mathlib

/-!
Verification of `OntotextGraphDBQAChain`
(`libs/community/langchain_community/chains/graph_qa/ontotext_graphdb.py`).

The module orchestrates: SPARQL generation (an LLM chain), execution against a
GraphDB endpoint with a bounded repair loop on `QueryBadFormed` failures, JSON
formatting of the result bindings, and a QA chain producing the final answer.

The embedding models the collaborators (the endpoint `graph.exec_query`, the
`sparql_fix_chain`, the `qa_chain`) as call-indexed oracles, so every possible
single-run behaviour of the real collaborators corresponds to some oracle.
Exceptions are modelled by the closed variant type `Exc`, mirroring the
exception classes the Python code distinguishes in its `except` clauses.
-/

/-- A bound value in a SPARQL result binding: the Python code reads `v.value`
from each `SPARQLWrapper.SmartWrapper.Value`. -/
structure BindingValue where
  value : String
deriving DecidableEq

/-- The result set of a successful query execution.  The Python code only ever
reads `query_results.bindings`, a list of rows, each row a mapping from
variable name to bound value (Python dicts preserve insertion order, so a row
is an ordered association list). -/
structure ResultSet where
  bindings : List (List (String × BindingValue))
deriving DecidableEq

/-- The exception classes distinguished by `_execute_query`'s `except` clauses:
`QueryBadFormed` (400), `Unauthorized` (401), `EndPointNotFound` (404),
`URITooLong` (414), `EndPointInternalError` (500), any other `HTTPError`, and
the catch-all `except Exception`.  `genericUnableToExecute` stands for the bare
`raise Exception` of the no-result safety net at the end of `_execute_query`;
it is the sentinel marking that the safety net fired. -/
inductive Exc where
  | queryBadFormed (msg : String)
  | unauthorized (msg : String)
  | endPointNotFound (msg : String)
  | uriTooLong (msg : String)
  | endPointInternalError (msg : String)
  | httpError (status : Nat) (msg : String)
  | otherException (msg : String)
  | genericUnableToExecute
deriving DecidableEq

/-- Behaviour of the collaborators for one request.
`execQuery n q` is the outcome of the `n`-th call to `self.graph.exec_query`
(0-based), given the query string `q` passed to it.  `fixChain n e g s` is the
outcome of the `n`-th call to `self.sparql_fix_chain.invoke`, given the
`error_message` `e`, the current `generated_sparql` `g` and the `schema` `s`
it is invoked with.  Indexing by the call number loses no generality: any
stateful collaborator induces such an oracle for a fixed run. -/
structure Collab where
  execQuery : Nat → String → Except Exc ResultSet
  fixChain : Nat → String → String → String → Except Exc String

/-- The observable outcome of `_execute_query`: the returned
`(query, results)` pair or the raised exception, together with how many times
`sparql_fix_chain.invoke` and `graph.exec_query` were called. -/
structure ExecOutcome where
  result : Except Exc (String × ResultSet)
  fixCalls : Nat
  execCalls : Nat

/-- The `while retries <= self.max_fix_retries` loop of `_execute_query`
(source lines 211-251).  State on entry: the current `retries` counter, the
current `error_message` and `generated_sparql`, and the number of fix-chain
(`fIdx`) and exec (`cIdx`) calls already made (these are also the 0-based
indices of the next calls).  One iteration invokes `sparql_fix_chain`, then
`graph.exec_query` on the repaired query; the inner `except QueryBadFormed`
covers both calls, increments `retries`, replaces `error_message`, and
re-raises when `retries > max_fix_retries`.  Any other exception from either
call propagates (the outer handlers guard only the initial `try` block, not
this handler's body).  If the `while` condition fails the loop exits normally
and control reaches the no-result safety net, modelled by the
`genericUnableToExecute` sentinel. -/
def fixLoop (c : Collab) (max_fix_retries : Nat) (schema : String)
    (retries : Nat) (error_message generated_sparql : String)
    (fIdx cIdx : Nat) : ExecOutcome :=
  if _hw : retries ≤ max_fix_retries then
    match c.fixChain fIdx error_message generated_sparql schema with
    | .error (.queryBadFormed m) =>
        -- a QueryBadFormed raised by the fix chain itself is caught by the
        -- inner handler: `generated_sparql` is not updated (the assignment
        -- follows the invoke), but the counter and message are
        if hr : retries + 1 > max_fix_retries then
          ⟨.error (.queryBadFormed m), fIdx + 1, cIdx⟩
        else
          fixLoop c max_fix_retries schema (retries + 1) m generated_sparql
            (fIdx + 1) cIdx
    | .error e => ⟨.error e, fIdx + 1, cIdx⟩
    | .ok newSparql =>
        match c.execQuery cIdx newSparql with
        | .ok res => ⟨.ok (newSparql, res), fIdx + 1, cIdx + 1⟩
        | .error (.queryBadFormed m) =>
            if hr : retries + 1 > max_fix_retries then
              ⟨.error (.queryBadFormed m), fIdx + 1, cIdx + 1⟩
            else
              fixLoop c max_fix_retries schema (retries + 1) m newSparql
                (fIdx + 1) (cIdx + 1)
        | .error e => ⟨.error e, fIdx + 1, cIdx + 1⟩
  else
    ⟨.error .genericUnableToExecute, fIdx, cIdx⟩
termination_by max_fix_retries + 1 - retries
decreasing_by
  all_goals omega

/-- `OntotextGraphDBQAChain._execute_query` (source lines 155-309).  The
initial `try` executes the generated query; on `QueryBadFormed` it sets
`retries = 1`, raises immediately when `retries > max_fix_retries`
(`max_fix_retries = 0`), and otherwise enters the repair loop.  Every other
exception class is re-raised unchanged by its handler. -/
def execute_query (c : Collab) (max_fix_retries : Nat)
    (generated_sparql schema : String) : ExecOutcome :=
  match c.execQuery 0 generated_sparql with
  | .ok res => ⟨.ok (generated_sparql, res), 0, 1⟩
  | .error (.queryBadFormed m) =>
      if 1 > max_fix_retries then
        ⟨.error (.queryBadFormed m), 0, 1⟩
      else
        fixLoop c max_fix_retries schema 1 m generated_sparql 0 1
  | .error e => ⟨.error e, 0, 1⟩

/-- Lower-case hex digit, as Python's `json` module emits in `\uXXXX`. -/
def hexDigit (n : Nat) : Char :=
  if n < 10 then Char.ofNat (48 + n) else Char.ofNat (87 + n)

/-- Four lower-case hex digits of `n % 65536`. -/
def toHex4 (n : Nat) : String :=
  String.mk [hexDigit (n / 4096 % 16), hexDigit (n / 256 % 16),
    hexDigit (n / 16 % 16), hexDigit (n % 16)]

/-- Escape of one character in `json.dumps` with the default
`ensure_ascii=True` (CPython `py_encode_basestring_ascii`): `"` and `\`
escaped, the named control escapes, `\uXXXX` for all other characters outside
`0x20`-`0x7e`, surrogate pairs above `0xffff`. -/
def pyJsonEscapeChar (ch : Char) : String :=
  if ch = '"' then "\\\""
  else if ch = '\\' then "\\\\"
  else if ch.toNat = 8 then "\\b"
  else if ch.toNat = 9 then "\\t"
  else if ch.toNat = 10 then "\\n"
  else if ch.toNat = 12 then "\\f"
  else if ch.toNat = 13 then "\\r"
  else if ch.toNat < 32 ∨ 126 < ch.toNat then
    if ch.toNat < 65536 then "\\u" ++ toHex4 ch.toNat
    else
      "\\u" ++ toHex4 (55296 + (ch.toNat - 65536) / 1024) ++
      "\\u" ++ toHex4 (56320 + (ch.toNat - 65536) % 1024)
  else String.singleton ch

/-- A JSON string literal as `json.dumps` renders it. -/
def pyJsonString (s : String) : String :=
  "\"" ++ String.join (s.data.map pyJsonEscapeChar) ++ "\""

/-- A JSON object as `json.dumps` renders a dict of strings, with the default
separators: `\x7b"k": "v", ...\x7d`. -/
def pyJsonObject (d : List (String × String)) : String :=
  "\x7b" ++
    String.intercalate ", "
      (d.map (fun kv => pyJsonString kv.1 ++ ": " ++ pyJsonString kv.2)) ++
  "\x7d"

/-- `json.dumps` on a list of string dicts, with the default separators
`(", ", ": ")` and `ensure_ascii=True`. -/
def pyJsonDumps (l : List (List (String × String))) : String :=
  "[" ++ String.intercalate ", " (l.map pyJsonObject) ++ "]"

/-- `OntotextGraphDBQAChain.query_results_to_json` (source lines 311-327):
`res = [\x7bk: v.value\x7d for d in query_bindings for k, v in d.items()]`
followed by `json.dumps(res)`. -/
def query_results_to_json (query_results : ResultSet) : String :=
  let res := query_results.bindings.flatMap
    (fun d => d.map (fun kv => [(kv.1, kv.2.value)]))
  pyJsonDumps res

/-- The observable outcome of `_call`: the returned
`(answer, generated_sparql)` pair or the raised exception, together with how
many times the qa, fix and exec collaborators were called. -/
structure CallOutcome where
  result : Except Exc (String × String)
  qaCalls : Nat
  fixCalls : Nat
  execCalls : Nat

/-- `OntotextGraphDBQAChain._call` (source lines 83-153), from the point where
the generation chain's outcome is known: `generation` is the outcome of
`sparql_generation_chain.invoke` (a failure there propagates before anything
else runs); then `_execute_query`, then `query_results_to_json`, then
`qa_chain.invoke` with the question and the formatted results as context;
the returned dict maps the answer key to the qa output and the
generated-sparql key to the query string `_execute_query` returned. -/
def call_chain (c : Collab) (qa : String → String → Except Exc String)
    (max_fix_retries : Nat) (generation : Except Exc String)
    (schema question : String) : CallOutcome :=
  match generation with
  | .error e => ⟨.error e, 0, 0, 0⟩
  | .ok generated_sparql =>
      let eo := execute_query c max_fix_retries generated_sparql schema
      match eo.result with
      | .error e => ⟨.error e, 0, eo.fixCalls, eo.execCalls⟩
      | .ok (generated_valid_sparql, query_results) =>
          let query_results_str := query_results_to_json query_results
          match qa question query_results_str with
          | .error e => ⟨.error e, 1, eo.fixCalls, eo.execCalls⟩
          | .ok answer =>
              ⟨.ok (answer, generated_valid_sparql), 1, eo.fixCalls,
                eo.execCalls⟩

/-- Does this exception belong to the `QueryBadFormed` class (the only class
the repair loop's inner handler catches)? -/
def Exc.isQueryBadFormed : Exc → Bool
  | .queryBadFormed _ => true
  | _ => false

/-- The flat shape the specification describes for the result formatter: an
ordered sequence with one single-entry mapping per binding, in row order and
within-row binding order. -/
def spec_flattened_rows (rows : List (List (String × BindingValue))) :
    List (List (String × String)) :=
  rows.flatMap (fun row => row.map (fun kv => [(kv.1, kv.2.value)]))

/-- A one-row, one-binding result set, used as concrete endpoint output. -/
def rsOne : ResultSet := ⟨[[("a", ⟨"1"⟩)]]⟩

/-- Endpoint that always succeeds with `rsOne`. -/
def cOk : Collab :=
  ⟨fun _ _ => .ok rsOne, fun _ _ _ _ => .ok "unused"⟩

/-- Endpoint that always fails with `Unauthorized`. -/
def cUnauthorized : Collab :=
  ⟨fun _ _ => .error (.unauthorized "401"), fun _ _ _ _ => .ok "unused"⟩

/-- Endpoint for which every query is malformed; the fix chain always returns
a (still malformed) candidate. -/
def cBad : Collab :=
  ⟨fun _ _ => .error (.queryBadFormed "syntax error"),
    fun _ _ _ _ => .ok "fixed"⟩

/-- Endpoint whose first execution is malformed and whose later executions
succeed; the fix chain returns the repaired query `Q1`. -/
def cRepair : Collab :=
  ⟨fun n _ => if n = 0 then .error (.queryBadFormed "e0") else .ok rsOne,
    fun _ _ _ _ => .ok "Q1"⟩

/-- Endpoint whose first execution is malformed; the first fix-chain call
itself raises `QueryBadFormed`, the second returns `Q2`, whose execution
succeeds. -/
def cFixRaises : Collab :=
  ⟨fun n _ => if n = 0 then .error (.queryBadFormed "e0") else .ok rsOne,
    fun n _ _ _ =>
      if n = 0 then .error (.queryBadFormed "f1") else .ok "Q2"⟩

/-- Endpoint whose first execution is malformed; the fix chain raises a
failure outside the `QueryBadFormed` class. -/
def cFixOther : Collab :=
  ⟨fun _ _ => .error (.queryBadFormed "e0"),
    fun _ _ _ _ => .error (.otherException "boom")⟩

/-- Step lemma: a fix-chain failure outside the `QueryBadFormed` class is not
caught by the loop's inner handler and propagates, with no further execution
attempt. -/
theorem fixLoop_fix_raises_other (c : Collab) (max_fix_retries : Nat)
    (schema : String) (retries : Nat) (e g : String) (fi ci : Nat)
    (exc : Exc) (hw : retries ≤ max_fix_retries)
    (hfc : c.fixChain fi e g schema = .error exc)
    (hnb : exc.isQueryBadFormed = false) :
    fixLoop c max_fix_retries schema retries e g fi ci =
      ⟨.error exc, fi + 1, ci⟩ := by
  rw [fixLoop, dif_pos hw, hfc]
  cases exc <;> simp_all [Exc.isQueryBadFormed]

/-- Step lemma: a `QueryBadFormed` raised by the fix chain itself is caught by
the inner handler; with the budget exhausted it is re-raised. -/
theorem fixLoop_fix_raises_qbf_exhausted (c : Collab) (max_fix_retries : Nat)
    (schema : String) (retries : Nat) (e g : String) (fi ci : Nat)
    (m : String) (hw : retries ≤ max_fix_retries)
    (hfc : c.fixChain fi e g schema = .error (.queryBadFormed m))
    (hx : retries + 1 > max_fix_retries) :
    fixLoop c max_fix_retries schema retries e g fi ci =
      ⟨.error (.queryBadFormed m), fi + 1, ci⟩ := by
  rw [fixLoop, dif_pos hw, hfc]
  simp [dif_pos hx]

/-- Step lemma: a `QueryBadFormed` raised by the fix chain itself is caught by
the inner handler; with budget remaining the loop continues with the counter
incremented, the new error message, and the candidate query unchanged. -/
theorem fixLoop_fix_raises_qbf_continue (c : Collab) (max_fix_retries : Nat)
    (schema : String) (retries : Nat) (e g : String) (fi ci : Nat)
    (m : String) (hw : retries ≤ max_fix_retries)
    (hfc : c.fixChain fi e g schema = .error (.queryBadFormed m))
    (hx : retries + 1 ≤ max_fix_retries) :
    fixLoop c max_fix_retries schema retries e g fi ci =
      fixLoop c max_fix_retries schema (retries + 1) m g (fi + 1) ci := by
  rw [fixLoop, dif_pos hw, hfc]
  simp [dif_neg (by omega : ¬ retries + 1 > max_fix_retries)]

/-- Step lemma: the fix chain returns a repaired query and its execution
succeeds: the loop returns the repaired query with the results. -/
theorem fixLoop_exec_ok (c : Collab) (max_fix_retries : Nat)
    (schema : String) (retries : Nat) (e g : String) (fi ci : Nat)
    (q2 : String) (res : ResultSet) (hw : retries ≤ max_fix_retries)
    (hfc : c.fixChain fi e g schema = .ok q2)
    (hex : c.execQuery ci q2 = .ok res) :
    fixLoop c max_fix_retries schema retries e g fi ci =
      ⟨.ok (q2, res), fi + 1, ci + 1⟩ := by
  rw [fixLoop, dif_pos hw, hfc]
  simp [hex]

/-- Step lemma: the repaired query is again `QueryBadFormed` and the budget is
exhausted: the last failure is re-raised. -/
theorem fixLoop_exec_bad_exhausted (c : Collab) (max_fix_retries : Nat)
    (schema : String) (retries : Nat) (e g : String) (fi ci : Nat)
    (q2 m : String) (hw : retries ≤ max_fix_retries)
    (hfc : c.fixChain fi e g schema = .ok q2)
    (hex : c.execQuery ci q2 = .error (.queryBadFormed m))
    (hx : retries + 1 > max_fix_retries) :
    fixLoop c max_fix_retries schema retries e g fi ci =
      ⟨.error (.queryBadFormed m), fi + 1, ci + 1⟩ := by
  rw [fixLoop, dif_pos hw, hfc]
  simp [hex, dif_pos hx]

/-- Step lemma: the repaired query is again `QueryBadFormed` with budget
remaining: the loop continues from the repaired query and the new message. -/
theorem fixLoop_exec_bad_continue (c : Collab) (max_fix_retries : Nat)
    (schema : String) (retries : Nat) (e g : String) (fi ci : Nat)
    (q2 m : String) (hw : retries ≤ max_fix_retries)
    (hfc : c.fixChain fi e g schema = .ok q2)
    (hex : c.execQuery ci q2 = .error (.queryBadFormed m))
    (hx : retries + 1 ≤ max_fix_retries) :
    fixLoop c max_fix_retries schema retries e g fi ci =
      fixLoop c max_fix_retries schema (retries + 1) m q2 (fi + 1) (ci + 1) := by
  rw [fixLoop, dif_pos hw, hfc]
  simp [hex, dif_neg (by omega : ¬ retries + 1 > max_fix_retries)]

/-- Step lemma: execution of the repaired query fails outside the
`QueryBadFormed` class: the failure propagates (the outer handlers guard only
the initial `try` block). -/
theorem fixLoop_exec_raises_other (c : Collab) (max_fix_retries : Nat)
    (schema : String) (retries : Nat) (e g : String) (fi ci : Nat)
    (q2 : String) (exc : Exc) (hw : retries ≤ max_fix_retries)
    (hfc : c.fixChain fi e g schema = .ok q2)
    (hex : c.execQuery ci q2 = .error exc)
    (hnb : exc.isQueryBadFormed = false) :
    fixLoop c max_fix_retries schema retries e g fi ci =
      ⟨.error exc, fi + 1, ci + 1⟩ := by
  rw [fixLoop, dif_pos hw, hfc]
  cases exc <;> simp_all [Exc.isQueryBadFormed]

/-- Helper: when every endpoint execution fails as `QueryBadFormed` and every
fix-chain call returns a query, the loop entered at `retries ≤ max_fix_retries`
performs `max_fix_retries - retries + 1` further fix and exec calls and raises
the `QueryBadFormed` failure of the final execution (the exec call of index
`ci + (max_fix_retries - retries)`). -/
theorem fixLoop_all_malformed (c : Collab) (max_fix_retries : Nat)
    (schema : String)
    (hexec : ∀ n q, ∃ m, c.execQuery n q = .error (.queryBadFormed m))
    (hfix : ∀ n e g, ∃ q2, c.fixChain n e g schema = .ok q2) :
    ∀ d retries, retries ≤ max_fix_retries → max_fix_retries - retries = d →
      ∀ e g fi ci, ∃ m q,
      fixLoop c max_fix_retries schema retries e g fi ci =
        ⟨.error (.queryBadFormed m), fi + (max_fix_retries - retries) + 1,
          ci + (max_fix_retries - retries) + 1⟩ ∧
      c.execQuery (ci + (max_fix_retries - retries)) q =
        .error (.queryBadFormed m) := by
  intro d
  induction d with
  | zero =>
    intro r hr hd e g fi ci
    obtain ⟨q2, hq2⟩ := hfix fi e g
    obtain ⟨m, hm⟩ := hexec ci q2
    refine ⟨m, q2, ?_, ?_⟩
    · rw [fixLoop_exec_bad_exhausted c max_fix_retries schema r e g fi ci q2 m
        hr hq2 hm (by omega)]
      simp [hd]
    · simpa [hd] using hm
  | succ d ih =>
    intro r hr hd e g fi ci
    obtain ⟨q2, hq2⟩ := hfix fi e g
    obtain ⟨m, hm⟩ := hexec ci q2
    obtain ⟨m2, q3, hres, hq3⟩ :=
      ih (r + 1) (by omega) (by omega) m q2 (fi + 1) (ci + 1)
    refine ⟨m2, q3, ?_, ?_⟩
    · rw [fixLoop_exec_bad_continue c max_fix_retries schema r e g fi ci q2 m
        hr hq2 hm (by omega), hres]
      have h1 : fi + 1 + (max_fix_retries - (r + 1)) =
          fi + (max_fix_retries - r) := by omega
      have h2 : ci + 1 + (max_fix_retries - (r + 1)) =
          ci + (max_fix_retries - r) := by omega
      rw [h1, h2]
    · have h2 : ci + 1 + (max_fix_retries - (r + 1)) =
          ci + (max_fix_retries - r) := by omega
      rwa [h2] at hq3

/-- Helper: run of the loop along an explicit candidate sequence `qs` and
message sequence `ms`.  State on entry of iteration `r` (for `1 ≤ r ≤ k`):
`error_message = ms (r-1)`, `generated_sparql = qs (r-1)`, `fi = r - 1`,
`ci = r`.  Executions `r..k-1` fail as `QueryBadFormed`, fix call `i` returns
`qs (i+1)`, and execution `k` of `qs k` succeeds with `rs`: the loop returns
`(qs k, rs)` after `k` fix calls and `k + 1` exec calls in total. -/
theorem fixLoop_succeeds_at (c : Collab) (max_fix_retries : Nat)
    (schema : String) (qs ms : Nat → String) (k : Nat) (rs : ResultSet)
    (hfix : ∀ i, i < k → c.fixChain i (ms i) (qs i) schema = .ok (qs (i + 1)))
    (hexec : ∀ i, 1 ≤ i → i < k →
      c.execQuery i (qs i) = .error (.queryBadFormed (ms i)))
    (hk : c.execQuery k (qs k) = .ok rs)
    (hkmax : k ≤ max_fix_retries) :
    ∀ d r, 1 ≤ r → r ≤ k → k - r = d →
      fixLoop c max_fix_retries schema r (ms (r - 1)) (qs (r - 1))
        (r - 1) r = ⟨.ok (qs k, rs), k, k + 1⟩ := by
  intro d
  induction d with
  | zero =>
    intro r h1 h2 hd
    have hrk : r = k := by omega
    subst hrk
    rw [fixLoop_exec_ok c max_fix_retries schema r (ms (r - 1)) (qs (r - 1))
      (r - 1) r (qs r) rs (by omega) ?_ hk]
    · congr 1
      omega
    · have : r - 1 + 1 = r := by omega
      rw [← this] at hk ⊢
      exact hfix (r - 1) (by omega)
  | succ d ih =>
    intro r h1 h2 hd
    have hfr : c.fixChain (r - 1) (ms (r - 1)) (qs (r - 1)) schema =
        .ok (qs (r - 1 + 1)) := hfix (r - 1) (by omega)
    have hstep : c.execQuery r (qs r) = .error (.queryBadFormed (ms r)) :=
      hexec r h1 (by omega)
    have hr1 : r - 1 + 1 = r := by omega
    rw [hr1] at hfr
    rw [fixLoop_exec_bad_continue c max_fix_retries schema r (ms (r - 1))
      (qs (r - 1)) (r - 1) r (qs r) (ms r) (by omega) hfr hstep (by omega)]
    have := ih (r + 1) (by omega) (by omega) (by omega)
    simpa [Nat.add_sub_cancel, hr1] using this

/-- Helper: for every collaborator behaviour and every loop entry state, the
loop makes at most `max_fix_retries + 1 - retries` further fix-chain calls and
at most as many further exec calls. -/
theorem fixLoop_call_bounds (c : Collab) (max_fix_retries : Nat)
    (schema : String) (retries : Nat) (e g : String) (fi ci : Nat) :
    (fixLoop c max_fix_retries schema retries e g fi ci).fixCalls ≤
        fi + (max_fix_retries + 1 - retries) ∧
      (fixLoop c max_fix_retries schema retries e g fi ci).execCalls ≤
        ci + (max_fix_retries + 1 - retries) := by
  induction retries, e, g, fi, ci using fixLoop.induct c max_fix_retries schema with
  | case1 r e g fi ci hw m hfc hx =>
    rw [fixLoop_fix_raises_qbf_exhausted c max_fix_retries schema r e g fi ci
      m hw hfc hx]
    dsimp only
    omega
  | case2 r e g fi ci hw m hfc hx ih =>
    rw [fixLoop_fix_raises_qbf_continue c max_fix_retries schema r e g fi ci
      m hw hfc (by omega)]
    omega
  | case3 r e g fi ci hw exc hne hfc =>
    rw [fixLoop_fix_raises_other c max_fix_retries schema r e g fi ci exc hw
      hfc (by cases exc <;> first | rfl | exact ((hne _ rfl)).elim)]
    dsimp only
    omega
  | case4 r e g fi ci hw q2 hfc res hex =>
    rw [fixLoop_exec_ok c max_fix_retries schema r e g fi ci q2 res hw hfc hex]
    dsimp only
    omega
  | case5 r e g fi ci hw q2 hfc m hex hx =>
    rw [fixLoop_exec_bad_exhausted c max_fix_retries schema r e g fi ci q2 m
      hw hfc hex hx]
    dsimp only
    omega
  | case6 r e g fi ci hw q2 hfc m hex hx ih =>
    rw [fixLoop_exec_bad_continue c max_fix_retries schema r e g fi ci q2 m
      hw hfc hex (by omega)]
    omega
  | case7 r e g fi ci hw q2 hfc exc hne hex =>
    rw [fixLoop_exec_raises_other c max_fix_retries schema r e g fi ci q2 exc
      hw hfc hex (by cases exc <;> first | rfl | exact ((hne _ rfl)).elim)]
    dsimp only
    omega
  | case8 r e g fi ci hw =>
    rw [fixLoop, dif_neg hw]
    dsimp only
    omega

/-- Helper: if neither collaborator ever produces the safety-net sentinel,
the loop entered within budget never produces it either: every branch either
returns a pair or re-raises an exception originating in a collaborator call. -/
theorem fixLoop_no_sentinel (c : Collab) (max_fix_retries : Nat)
    (schema : String)
    (hexec : ∀ n q, c.execQuery n q ≠ .error .genericUnableToExecute)
    (hfix : ∀ n e g, c.fixChain n e g schema ≠ .error .genericUnableToExecute)
    (retries : Nat) (e g : String) (fi ci : Nat) :
    retries ≤ max_fix_retries →
      (fixLoop c max_fix_retries schema retries e g fi ci).result ≠
        .error .genericUnableToExecute := by
  induction retries, e, g, fi, ci using fixLoop.induct c max_fix_retries schema with
  | case1 r e g fi ci hw m hfc hx =>
    intro _
    rw [fixLoop_fix_raises_qbf_exhausted c max_fix_retries schema r e g fi ci
      m hw hfc hx]
    simp
  | case2 r e g fi ci hw m hfc hx ih =>
    intro _
    rw [fixLoop_fix_raises_qbf_continue c max_fix_retries schema r e g fi ci
      m hw hfc (by omega)]
    exact ih (by omega)
  | case3 r e g fi ci hw exc hne hfc =>
    intro _
    rw [fixLoop_fix_raises_other c max_fix_retries schema r e g fi ci exc hw
      hfc (by cases exc <;> first | rfl | exact ((hne _ rfl)).elim)]
    intro hcon
    have hx2 : exc = Exc.genericUnableToExecute := by simpa using hcon
    exact hfix fi e g (hx2 ▸ hfc)
  | case4 r e g fi ci hw q2 hfc res hex =>
    intro _
    rw [fixLoop_exec_ok c max_fix_retries schema r e g fi ci q2 res hw hfc hex]
    simp
  | case5 r e g fi ci hw q2 hfc m hex hx =>
    intro _
    rw [fixLoop_exec_bad_exhausted c max_fix_retries schema r e g fi ci q2 m
      hw hfc hex hx]
    simp
  | case6 r e g fi ci hw q2 hfc m hex hx ih =>
    intro _
    rw [fixLoop_exec_bad_continue c max_fix_retries schema r e g fi ci q2 m
      hw hfc hex (by omega)]
    exact ih (by omega)
  | case7 r e g fi ci hw q2 hfc exc hne hex =>
    intro _
    rw [fixLoop_exec_raises_other c max_fix_retries schema r e g fi ci q2 exc
      hw hfc hex (by cases exc <;> first | rfl | exact ((hne _ rfl)).elim)]
    intro hcon
    have hx2 : exc = Exc.genericUnableToExecute := by simpa using hcon
    exact hexec ci q2 (hx2 ▸ hex)
  | case8 r e g fi ci hw =>
    intro hle
    exact absurd hle hw

/-- Helper: the full exhaustion run of `_execute_query`.  When every execution
is `QueryBadFormed` and every fix-chain call returns a candidate, the outcome
is the `QueryBadFormed` failure of the final execution (exec call of index
`max_fix_retries`), after exactly `max_fix_retries` fix-chain calls and
`max_fix_retries + 1` exec calls; for `max_fix_retries = 0` the failing query
is the initial one. -/
theorem execute_query_all_malformed_aux (c : Collab) (max_fix_retries : Nat)
    (generated_sparql schema : String)
    (hexec : ∀ n q, ∃ m, c.execQuery n q = .error (.queryBadFormed m))
    (hfix : ∀ n e g, ∃ q2, c.fixChain n e g schema = .ok q2) :
    ∃ m q, execute_query c max_fix_retries generated_sparql schema =
        ⟨.error (.queryBadFormed m), max_fix_retries, max_fix_retries + 1⟩ ∧
      c.execQuery max_fix_retries q = .error (.queryBadFormed m) ∧
      (max_fix_retries = 0 → q = generated_sparql) := by
  obtain ⟨m0, hm0⟩ := hexec 0 generated_sparql
  by_cases h0 : max_fix_retries = 0
  · subst h0
    exact ⟨m0, generated_sparql, by simp [execute_query, hm0], hm0, fun _ => rfl⟩
  · obtain ⟨m, q, hres, hq⟩ := fixLoop_all_malformed c max_fix_retries schema
      hexec hfix (max_fix_retries - 1) 1 (by omega) rfl m0 generated_sparql 0 1
    have h1 : 0 + (max_fix_retries - 1) + 1 = max_fix_retries := by omega
    have h2 : 1 + (max_fix_retries - 1) + 1 = max_fix_retries + 1 := by omega
    have h3 : 1 + (max_fix_retries - 1) = max_fix_retries := by omega
    rw [h1, h2] at hres
    rw [h3] at hq
    refine ⟨m, q, ?_, hq, fun hc => absurd hc h0⟩
    simp only [execute_query, hm0]
    rw [if_neg (by omega)]
    exact hres

/-- C1: for every `max_fix_retries = N ≥ 0`, if the initial execution and
every execution of a repaired query raises `QueryBadFormed` (the fix chain
itself always returning a candidate), `_execute_query` invokes
`sparql_fix_chain` exactly `N` times and then raises a `QueryBadFormed`
failure; for `N = 0` no repair is attempted and the failure raised is the
first one, from the initial execution of the generated query. -/
theorem execute_query_all_malformed_exact_retries (c : Collab)
    (max_fix_retries : Nat) (generated_sparql schema : String)
    (hexec : ∀ n q, ∃ m, c.execQuery n q = .error (.queryBadFormed m))
    (hfix : ∀ n e g, ∃ q2, c.fixChain n e g schema = .ok q2) :
    ∃ m, execute_query c max_fix_retries generated_sparql schema =
        ⟨.error (.queryBadFormed m), max_fix_retries, max_fix_retries + 1⟩ ∧
      (max_fix_retries = 0 →
        c.execQuery 0 generated_sparql = .error (.queryBadFormed m)) := by
  obtain ⟨m, q, hres, hq, hq0⟩ := execute_query_all_malformed_aux c
    max_fix_retries generated_sparql schema hexec hfix
  exact ⟨m, hres, fun h0 => by rw [← hq0 h0, ← h0]; exact hq⟩

/-- Witness for C1: with every query malformed and `max_fix_retries = 2`,
exactly 2 fix-chain calls and 3 executions happen, and a `QueryBadFormed`
failure is raised. -/
theorem execute_query_all_malformed_exact_retries_witness :
    ∃ m, execute_query cBad 2 "Q0" "S" =
        ⟨.error (.queryBadFormed m), 2, 3⟩ ∧
      ((2 : Nat) = 0 → cBad.execQuery 0 "Q0" = .error (.queryBadFormed m)) :=
  execute_query_all_malformed_exact_retries cBad 2 "Q0" "S"
    (fun _ _ => ⟨"syntax error", rfl⟩) (fun _ _ _ => ⟨"fixed", rfl⟩)

/-- C2: a first-execution failure of any class other than `QueryBadFormed`
propagates unchanged, with zero fix-chain calls, for every value of
`max_fix_retries`. -/
theorem execute_query_nonmalformed_propagates (c : Collab)
    (max_fix_retries : Nat) (generated_sparql schema : String) (exc : Exc)
    (hex : c.execQuery 0 generated_sparql = .error exc)
    (hnb : exc.isQueryBadFormed = false) :
    execute_query c max_fix_retries generated_sparql schema =
      ⟨.error exc, 0, 1⟩ := by
  cases exc <;> simp_all [execute_query, Exc.isQueryBadFormed]

/-- Witness for C2: an `Unauthorized` failure on the first execution
propagates immediately with no repair, even with budget available. -/
theorem execute_query_nonmalformed_propagates_witness :
    execute_query cUnauthorized 5 "Q0" "S" =
      ⟨.error (.unauthorized "401"), 0, 1⟩ :=
  execute_query_nonmalformed_propagates cUnauthorized 5 "Q0" "S"
    (.unauthorized "401") rfl rfl

/-- C3: if the first execution of the generated query succeeds, zero
fix-chain calls occur and `_execute_query` returns the initial query string
unchanged together with the raw result set from the endpoint. -/
theorem execute_query_first_success (c : Collab) (max_fix_retries : Nat)
    (generated_sparql schema : String) (res : ResultSet)
    (hex : c.execQuery 0 generated_sparql = .ok res) :
    execute_query c max_fix_retries generated_sparql schema =
      ⟨.ok (generated_sparql, res), 0, 1⟩ := by
  simp [execute_query, hex]

/-- Witness for C3: a successful first execution returns the original query
and the endpoint's results, with no repair. -/
theorem execute_query_first_success_witness :
    execute_query cOk 5 "Q0" "S" = ⟨.ok ("Q0", rsOne), 0, 1⟩ :=
  execute_query_first_success cOk 5 "Q0" "S" rsOne rfl

/-- C4: `query_results_to_json` flattens each row into one single-key mapping
per binding, in row order and within-row binding order, and returns the JSON
encoding of that flat sequence; in particular the bindings
`[\x7b"a": "1", "b": "2"\x7d]` format to the JSON text of
`[\x7b"a": "1"\x7d, \x7b"b": "2"\x7d]`, not to a row-grouped shape. -/
theorem query_results_to_json_flattens :
    (∀ query_results : ResultSet,
      query_results_to_json query_results =
        pyJsonDumps (spec_flattened_rows query_results.bindings)) ∧
    query_results_to_json ⟨[[("a", ⟨"1"⟩), ("b", ⟨"2"⟩)]]⟩ =
      "[\x7b\"a\": \"1\"\x7d, \x7b\"b\": \"2\"\x7d]" :=
  ⟨fun _ => rfl, rfl⟩

/-- C9: `query_results_to_json` is deterministic in its input: it depends only
on the `bindings` of the result set, so formatting the same result set twice
yields byte-identical output strings. -/
theorem query_results_to_json_deterministic (q1 q2 : ResultSet)
    (h : q1.bindings = q2.bindings) :
    query_results_to_json q1 = query_results_to_json q2 := by
  cases q1
  cases q2
  cases h
  rfl

/-- Witness for C9: formatting the same concrete result set twice yields the
same string. -/
theorem query_results_to_json_deterministic_witness :
    query_results_to_json ⟨[[("a", ⟨"1"⟩), ("b", ⟨"2"⟩)]]⟩ =
      query_results_to_json ⟨[[("a", ⟨"1"⟩), ("b", ⟨"2"⟩)]]⟩ :=
  query_results_to_json_deterministic ⟨[[("a", ⟨"1"⟩), ("b", ⟨"2"⟩)]]⟩
    ⟨[[("a", ⟨"1"⟩), ("b", ⟨"2"⟩)]]⟩ rfl

/-- C7: for every `max_fix_retries = N` and every collaborator behaviour the
loop terminates (`execute_query` is a total function), `graph.exec_query` is
called at most `N + 1` times, and `sparql_fix_chain` at most `N` times — so at
most `N + 1` distinct candidate query strings (the initial query plus at most
`N` repair outputs) are produced per request. -/
theorem execute_query_call_bounds (c : Collab) (max_fix_retries : Nat)
    (generated_sparql schema : String) :
    (execute_query c max_fix_retries generated_sparql schema).execCalls ≤
        max_fix_retries + 1 ∧
      (execute_query c max_fix_retries generated_sparql schema).fixCalls ≤
        max_fix_retries := by
  cases hex : c.execQuery 0 generated_sparql with
  | ok res => refine ⟨?_, ?_⟩ <;> simp [execute_query, hex]
  | error exc =>
    cases exc with
    | queryBadFormed m =>
      by_cases h0 : 1 > max_fix_retries
      · refine ⟨?_, ?_⟩ <;> simp [execute_query, hex, h0]
      · have hb := fixLoop_call_bounds c max_fix_retries schema 1 m
          generated_sparql 0 1
        simp only [execute_query, hex]
        rw [if_neg h0]
        exact ⟨le_trans hb.2 (by omega), le_trans hb.1 (by omega)⟩
    | unauthorized m => refine ⟨?_, ?_⟩ <;> simp [execute_query, hex]
    | endPointNotFound m => refine ⟨?_, ?_⟩ <;> simp [execute_query, hex]
    | uriTooLong m => refine ⟨?_, ?_⟩ <;> simp [execute_query, hex]
    | endPointInternalError m => refine ⟨?_, ?_⟩ <;> simp [execute_query, hex]
    | httpError s m => refine ⟨?_, ?_⟩ <;> simp [execute_query, hex]
    | otherException m => refine ⟨?_, ?_⟩ <;> simp [execute_query, hex]
    | genericUnableToExecute => refine ⟨?_, ?_⟩ <;> simp [execute_query, hex]

/-- C8: the no-result safety net at the end of `_execute_query` is
unreachable: as long as the collaborators themselves never produce the
sentinel (which stands for the fresh generic exception constructed at the
safety net itself, line 309), every call to `_execute_query` either returns a
`(query, results)` pair or re-raises a collaborator failure, and never raises
the generic "unable to execute query" failure. -/
theorem execute_query_safety_net_unreachable (c : Collab)
    (max_fix_retries : Nat) (generated_sparql schema : String)
    (hexec : ∀ n q, c.execQuery n q ≠ .error .genericUnableToExecute)
    (hfix : ∀ n e g, c.fixChain n e g schema ≠ .error .genericUnableToExecute) :
    (execute_query c max_fix_retries generated_sparql schema).result ≠
      .error .genericUnableToExecute := by
  cases hex : c.execQuery 0 generated_sparql with
  | ok res => simp [execute_query, hex]
  | error exc =>
    cases exc with
    | queryBadFormed m =>
      by_cases h0 : 1 > max_fix_retries
      · simp [execute_query, hex, h0]
      · simp only [execute_query, hex]
        rw [if_neg h0]
        exact fixLoop_no_sentinel c max_fix_retries schema hexec hfix 1 m
          generated_sparql 0 1 (by omega)
    | unauthorized m => simp [execute_query, hex]
    | endPointNotFound m => simp [execute_query, hex]
    | uriTooLong m => simp [execute_query, hex]
    | endPointInternalError m => simp [execute_query, hex]
    | httpError s m => simp [execute_query, hex]
    | otherException m => simp [execute_query, hex]
    | genericUnableToExecute => exact absurd hex (hexec 0 generated_sparql)

/-- Witness for C8: with a well-behaved endpoint the result is never the
safety-net failure. -/
theorem execute_query_safety_net_unreachable_witness :
    (execute_query cOk 5 "Q0" "S").result ≠
      .error .genericUnableToExecute :=
  execute_query_safety_net_unreachable cOk 5 "Q0" "S"
    (fun _ _ => by simp [cOk]) (fun _ _ _ => by simp [cOk])

/-- C5: when the repair budget is exhausted (every execution `QueryBadFormed`,
every fix-chain call returning a candidate), `_call` raises the last
malformed-query failure — the message `m` of the final failed execution (the
exec call of index `max_fix_retries`) — and the `qa_chain` is never invoked. -/
theorem call_chain_exhaustion_last_error_no_qa (c : Collab)
    (qa : String → String → Except Exc String) (max_fix_retries : Nat)
    (generated_sparql schema question : String)
    (hexec : ∀ n q, ∃ m, c.execQuery n q = .error (.queryBadFormed m))
    (hfix : ∀ n e g, ∃ q2, c.fixChain n e g schema = .ok q2) :
    ∃ m q, call_chain c qa max_fix_retries (.ok generated_sparql) schema
          question =
        ⟨.error (.queryBadFormed m), 0, max_fix_retries,
          max_fix_retries + 1⟩ ∧
      c.execQuery max_fix_retries q = .error (.queryBadFormed m) := by
  obtain ⟨m, q, hres, hq, _⟩ := execute_query_all_malformed_aux c
    max_fix_retries generated_sparql schema hexec hfix
  exact ⟨m, q, by simp [call_chain, hres], hq⟩

/-- Witness for C5: `max_fix_retries = 2`, all three candidates malformed —
the entry point raises the last `QueryBadFormed` and never calls the answer
generator. -/
theorem call_chain_exhaustion_last_error_no_qa_witness :
    ∃ m q, call_chain cBad (fun _ _ => .ok "answer") 2 (.ok "Q0") "S"
          "how many" =
        ⟨.error (.queryBadFormed m), 0, 2, 3⟩ ∧
      cBad.execQuery 2 q = .error (.queryBadFormed m) :=
  call_chain_exhaustion_last_error_no_qa cBad (fun _ _ => .ok "answer") 2
    "Q0" "S" "how many" (fun _ _ => ⟨"syntax error", rfl⟩)
    (fun _ _ _ => ⟨"fixed", rfl⟩)

/-- C6: if the initial query is malformed and the `k`-th repaired query
(`1 ≤ k ≤ max_fix_retries`) executes successfully, the entry point returns
that `k`-th repaired query string `qs k` under the generated-query output key
— not the original `qs 0` — together with the answer the qa chain produced
from the flattened results of its execution. -/
theorem call_chain_kth_repair_success (c : Collab)
    (qa : String → String → Except Exc String) (max_fix_retries : Nat)
    (schema question : String) (qs ms : Nat → String) (k : Nat)
    (rs : ResultSet) (answer : String) (hk1 : 1 ≤ k)
    (hkm : k ≤ max_fix_retries)
    (hfix : ∀ i, i < k → c.fixChain i (ms i) (qs i) schema = .ok (qs (i + 1)))
    (hexec : ∀ i, i < k →
      c.execQuery i (qs i) = .error (.queryBadFormed (ms i)))
    (hsucc : c.execQuery k (qs k) = .ok rs)
    (hqa : qa question (query_results_to_json rs) = .ok answer) :
    call_chain c qa max_fix_retries (.ok (qs 0)) schema question =
      ⟨.ok (answer, qs k), 1, k, k + 1⟩ := by
  have hloop := fixLoop_succeeds_at c max_fix_retries schema qs ms k rs hfix
    (fun i h1 h2 => hexec i h2) hsucc hkm (k - 1) 1 (by omega) hk1 (by omega)
  simp only [Nat.sub_self] at hloop
  have hexec0 := hexec 0 (by omega)
  have hEQ : execute_query c max_fix_retries (qs 0) schema =
      ⟨.ok (qs k, rs), k, k + 1⟩ := by
    simp only [execute_query, hexec0]
    rw [if_neg (by omega)]
    exact hloop
  simp [call_chain, hEQ, hqa]

/-- Witness for C6: first query malformed, first repair `Q1` succeeds — the
result carries the flattened-results answer and `Q1`, not `Q0`. -/
theorem call_chain_kth_repair_success_witness :
    call_chain cRepair (fun _ ctx => .ok ctx) 1 (.ok "Q0") "S" "how many" =
      ⟨.ok ("[\x7b\"a\": \"1\"\x7d]", "Q1"), 1, 1, 2⟩ :=
  call_chain_kth_repair_success cRepair (fun _ ctx => .ok ctx) 1 "S"
    "how many" (fun i => if i = 0 then "Q0" else "Q1") (fun _ => "e0") 1
    rsOne "[\x7b\"a\": \"1\"\x7d]" (by omega) (by omega)
    (fun i hi => by
      have h0 : i = 0 := by omega
      subst h0
      rfl)
    (fun i hi => by
      have h0 : i = 0 := by omega
      subst h0
      rfl)
    rfl rfl

/-- Counterexample to C10: with `max_fix_retries = 2`, the endpoint rejecting
the initial query as `QueryBadFormed`, and the first `sparql_fix_chain.invoke`
itself raising `QueryBadFormed`, that fix-chain failure does NOT propagate out
of `_execute_query`: it is caught by the loop's inner handler, counted as a
repair attempt (the fix chain runs a second time), and the request ends in
success — contradicting the claim that any fix-chain failure propagates
immediately with no further repair or execution attempts. -/
theorem fix_chain_qbf_intercepted_cex :
    cFixRaises.fixChain 0 "e0" "Q0" "S" = .error (.queryBadFormed "f1") ∧
    execute_query cFixRaises 2 "Q0" "S" = ⟨.ok ("Q2", rsOne), 2, 2⟩ := by
  constructor
  · rfl
  · simp [execute_query, cFixRaises, fixLoop, rsOne]

/-- C10 (amended): if the first repair invocation (`sparql_fix_chain.invoke`
after the initial `QueryBadFormed`) raises a failure of any class other than
`QueryBadFormed`, that failure propagates out of `_execute_query` immediately:
no further repair or execution attempts occur, and none of the endpoint
failure handlers intercept it (they guard only the initial `try` block).  If
instead it raises a `QueryBadFormed`, the loop's inner handler catches it as
if a repaired query had failed: the retry counter increments and the error
message is replaced while the candidate query stays unchanged, re-raising only
when the budget is exhausted. -/
theorem fix_chain_failure_propagation_amended (c : Collab)
    (max_fix_retries : Nat) (generated_sparql schema : String)
    (m0 : String) (exc : Exc)
    (h0 : c.execQuery 0 generated_sparql = .error (.queryBadFormed m0))
    (h1 : 1 ≤ max_fix_retries)
    (hfc : c.fixChain 0 m0 generated_sparql schema = .error exc) :
    (exc.isQueryBadFormed = false →
      execute_query c max_fix_retries generated_sparql schema =
        ⟨.error exc, 1, 1⟩) ∧
    (∀ m, exc = .queryBadFormed m →
      (1 + 1 > max_fix_retries →
        execute_query c max_fix_retries generated_sparql schema =
          ⟨.error (.queryBadFormed m), 1, 1⟩) ∧
      (1 + 1 ≤ max_fix_retries →
        execute_query c max_fix_retries generated_sparql schema =
          fixLoop c max_fix_retries schema 2 m generated_sparql 1 1)) := by
  have hunfold : execute_query c max_fix_retries generated_sparql schema =
      fixLoop c max_fix_retries schema 1 m0 generated_sparql 0 1 := by
    simp only [execute_query, h0]
    rw [if_neg (by omega)]
  refine ⟨fun hnb => ?_, fun m hm => ⟨fun hx => ?_, fun hx => ?_⟩⟩
  · rw [hunfold]
    exact fixLoop_fix_raises_other c max_fix_retries schema 1 m0
      generated_sparql 0 1 exc h1 hfc hnb
  · subst hm
    rw [hunfold]
    exact fixLoop_fix_raises_qbf_exhausted c max_fix_retries schema 1 m0
      generated_sparql 0 1 m h1 hfc hx
  · subst hm
    rw [hunfold]
    exact fixLoop_fix_raises_qbf_continue c max_fix_retries schema 1 m0
      generated_sparql 0 1 m h1 hfc hx

/-- Witness for the amended C10: a fix chain raising a non-`QueryBadFormed`
failure makes `_execute_query` propagate it after one fix call and one
execution, with budget still available. -/
theorem fix_chain_failure_propagation_amended_witness :
    execute_query cFixOther 3 "Q0" "S" =
      ⟨.error (.otherException "boom"), 1, 1⟩ :=
  (fix_chain_failure_propagation_amended cFixOther 3 "Q0" "S" "e0"
    (.otherException "boom") rfl (by omega) rfl).1 rfl
